import Mathlib

/-!
Shallow embedding of `crates/openvino/src/core.rs`: the `Core` wrapper over
the native OpenVINO C API.  The native engine and the external collaborators
(library loader, plugin-file finder, the five C entry points) are modelled by
an environment `FfiEnv` that fixes, for every entry point, the status code it
returns and the handle it writes through its out-parameter.  Each wrapper
operation is translated into a Lean function over that environment which
returns its Rust result together with the ordered trace of foreign-boundary
events (calls made, foreign resources allocated and released), so that
resource-release and call-ordering properties become statements about traces.
-/

namespace OpenVINO

/-- Foreign status code (`IEStatusCode`) returned by every native call. -/
abbrev StatusCode := Int

/-- The success status of the native API (status code zero). -/
def okStatus : StatusCode := 0

/-- An opaque foreign pointer value: `none` is the null pointer, `some n` a
non-null handle. -/
abbrev Ptr := Option Nat

/-- Raw byte data (a Rust `&[u8]` slice), modelled as the list of its byte
values; the pointer-plus-length pair the code passes across the boundary is
modelled by the list together with its length. -/
abbrev Bytes := List Nat

/-- Modelled from the spec: the layout tag of a tensor descriptor
(`crate::Layout`, defined outside `core.rs`).  `core.rs` only uses `ANY`
(the "unspecified" layout); the other tags witness that the choice carries
information. -/
inductive Layout
  | ANY
  | NCHW
  | NHWC
  deriving DecidableEq

/-- Modelled from the spec: the element precision of a tensor descriptor
(`crate::Precision`, defined outside `core.rs`).  `core.rs` only uses `U8`
(unsigned 8-bit). -/
inductive Precision
  | U8
  | U16
  | FP32
  deriving DecidableEq

/-- Modelled from the spec: the shape/type descriptor
(`crate::tensor_desc::TensorDesc`, defined outside `core.rs`): a layout tag,
a dimension list and an element precision. -/
structure TensorDesc where
  layout : Layout
  dims : List Nat
  precision : Precision
  deriving DecidableEq

/-- Modelled from the spec: the constructor `TensorDesc::new(layout, dims,
precision)`. -/
def TensorDesc.new (layout : Layout) (dims : List Nat) (precision : Precision) :
    TensorDesc :=
  { layout := layout, dims := dims, precision := precision }

/-- Modelled from the spec: `OperationError` — the typed error the error
translator (`try_unsafe!` and `crate::error`, defined outside `core.rs`)
produces for a non-success native status; it preserves the original numeric
status code. -/
structure OperationError where
  code : StatusCode
  deriving DecidableEq

/-- Modelled from the spec: `LoadingError` (`crate::error`, defined outside
`core.rs`) — setup-time failures: the native shared library failed to load
(wrapping the message of the underlying loader error), or a discovered
configuration path cannot be represented as a valid string. -/
inductive LoadingError
  | systemFailure (msg : String)
  | cannotStringifyPath
  deriving DecidableEq

/-- Modelled from the spec: `SetupError` (`crate::error`, defined outside
`core.rs`) — the error type of `Core` construction: either a `LoadingError`
or the general operation failure produced when the native create call
returns a non-success status. -/
inductive SetupError
  | loading (e : LoadingError)
  | operation (e : OperationError)
  deriving DecidableEq

/-- Modelled from the spec: the error translator applied to one native status
(the `try_unsafe!` macro, defined outside `core.rs`): success exactly on
`okStatus`, otherwise an `OperationError` carrying the original status. -/
def tryStatus (status : StatusCode) : Except OperationError Unit :=
  if status = okStatus then Except.ok () else Except.error { code := status }

/-- The native configuration list `ie_config_t`: a linked list of name/value
pairs where `nil` stands for the null `next` pointer.  The `value` field of
the C struct is a pointer; it is modelled by the integer it points to
(`core.rs` passes the address of the `i32` constant `NUM_THREADS`). -/
inductive IeConfig
  | nil
  | cons (nm : String) (value : Int) (next : IeConfig)
  deriving DecidableEq

/-- A filesystem path as returned by the external finder collaborator
(a `std::path::PathBuf`): `toStr` is its optional valid-string
representation (`PathBuf::to_str`, which fails on non-representable data). -/
structure FfiPath where
  toStr : Option String
  deriving DecidableEq

/-- The wrapper type `Core` (`core.rs` lines 20 to 22): it owns the single
foreign handle to the inference runtime.  The field is named `instance` in
the source; `inst` here because `instance` is a Lean keyword. -/
structure Core where
  inst : Ptr
  deriving DecidableEq

/-- The wrapper type `crate::network::CNNNetwork`: a parsed model graph
owning one foreign handle. -/
structure CNNNetwork where
  inst : Ptr
  deriving DecidableEq

/-- The wrapper type `crate::network::ExecutableNetwork`: a compiled model
graph owning one foreign handle. -/
structure ExecutableNetwork where
  inst : Ptr
  deriving DecidableEq

/-- Modelled from the spec: `crate::blob::Blob` (defined outside `core.rs`) —
an owning wrapper around the foreign buffer object created for the weight
bytes. -/
structure Blob where
  inst : Ptr
  deriving DecidableEq

/-- Observable foreign-boundary events, recorded in call order: every native
call with the arguments the wrapper passes to it, every foreign resource
allocation, and every release. -/
inductive Event
  | coreCreateCall (file : String)
  | coreFree (h : Ptr)
  | readNetworkCall (core : Ptr) (modelPath : String) (weightsPath : String)
  | blobNewCall (desc : TensorDesc) (content : Bytes)
  | blobAlloc (h : Ptr)
  | blobFree (h : Ptr)
  | readFromMemoryCall (core : Ptr) (model : Bytes) (modelLen : Nat) (blob : Ptr)
  | loadNetworkCall (core : Ptr) (network : Ptr) (device : String) (config : IeConfig)
  deriving DecidableEq

/-- Behaviour of the native engine and of the external collaborators at the
foreign boundary.  `libLoad` is the result of `openvino_sys::library::load`
(`none` is success, `some msg` a loader error with message `msg`);
`findPluginsXml` is the result of `openvino_finder::find_plugins_xml`; every
other field gives, per entry point and as a function of the arguments, the
status code returned and the handle written through the out-parameter. -/
structure FfiEnv where
  libLoad : Option String
  findPluginsXml : Option FfiPath
  coreCreate : String → StatusCode × Ptr
  blobNew : TensorDesc → Bytes → StatusCode × Ptr
  readNetwork : Ptr → String → String → StatusCode × Ptr
  readNetworkFromMemory : Ptr → Bytes → Nat → Ptr → StatusCode × Ptr
  loadNetwork : Ptr → Ptr → String → IeConfig → StatusCode × Ptr

/-- The constant `NUM_THREADS` (`core.rs` line 17): the hard-coded
thread-count hint. -/
def NUM_THREADS : Int := 1

/-- Destruction of a `Core` (`drop_using_function!(Core, ie_core_free)`,
`core.rs` line 23): releases the foreign handle exactly once. -/
def Core.drop (core : Core) : List Event :=
  [Event.coreFree core.inst]

/-- Modelled from the spec: destruction of a `Blob`
(`drop_using_function!(Blob, ie_blob_free)` in `crate::blob`, defined
outside `core.rs`): releases the foreign buffer handle exactly once at
scope exit. -/
def Blob.drop (b : Blob) : List Event :=
  [Event.blobFree b.inst]

/-- Modelled from the spec: `Blob::new(desc, content)` (`crate::blob`,
defined outside `core.rs`) — invoke the native buffer-allocation entry point
with the descriptor and the byte slice; on success own the fresh foreign
buffer object, on a non-success status return the translated
`OperationError`. -/
def Blob.new (env : FfiEnv) (desc : TensorDesc) (content : Bytes) :
    Except OperationError Blob × List Event :=
  let (status, h) := env.blobNew desc content
  match tryStatus status with
  | Except.error e => (Except.error e, [Event.blobNewCall desc content])
  | Except.ok _ =>
      (Except.ok { inst := h }, [Event.blobNewCall desc content, Event.blobAlloc h])

/-- The function `Core::new` (`core.rs` lines 31 to 48): load the native
library (failure maps to `SystemFailure`); resolve the configuration file —
the explicit argument if given, else the discovered path stringified
(failure to stringify is `CannotStringifyPath`), else the empty string;
then call the native create entry point and wrap the written handle. -/
def Core.new (env : FfiEnv) (xml_config_file : Option String) :
    Except SetupError Core × List Event :=
  match env.libLoad with
  | some msg => (Except.error (SetupError.loading (LoadingError.systemFailure msg)), [])
  | none =>
    let fileR : Except SetupError String :=
      match xml_config_file with
      | some file => Except.ok file
      | none =>
        match env.findPluginsXml with
        | some file =>
          match file.toStr with
          | some s => Except.ok s
          | none => Except.error (SetupError.loading LoadingError.cannotStringifyPath)
        | none => Except.ok ""
    match fileR with
    | Except.error e => (Except.error e, [])
    | Except.ok file =>
      let (status, inst) := env.coreCreate file
      match tryStatus status with
      | Except.error e =>
          (Except.error (SetupError.operation e), [Event.coreCreateCall file])
      | Except.ok _ =>
          (Except.ok { inst := inst }, [Event.coreCreateCall file])

/-- The function `Core::read_network_from_file` (`core.rs` lines 52 to 65):
call the native read entry point with the two path strings and wrap the
written handle; a non-success status is returned as the translated error.
The second component of the result pair is the `Core` value after the call
(the source takes `&mut self` and never assigns to `self.instance`). -/
def Core.read_network_from_file (env : FfiEnv) (self : Core)
    (model_path : String) (weights_path : String) :
    (Except OperationError CNNNetwork × Core) × List Event :=
  let (status, inst) := env.readNetwork self.inst model_path weights_path
  let tr := [Event.readNetworkCall self.inst model_path weights_path]
  match tryStatus status with
  | Except.error e => ((Except.error e, self), tr)
  | Except.ok _ => ((Except.ok { inst := inst }, self), tr)

/-- The function `Core::read_network_from_buffer` (`core.rs` lines 69 to 85):
build the weights descriptor (`Layout::ANY`, one dimension equal to the
weight-byte count, `Precision::U8`), wrap the weight bytes into a transient
`Blob`, call the native read-from-memory entry point with the model bytes
(pointer plus length) and the blob handle, and drop the `Blob` at scope exit
on every path that created it (both the early `?` return and the end of the
function body). -/
def Core.read_network_from_buffer (env : FfiEnv) (self : Core)
    (model_content : Bytes) (weights_content : Bytes) :
    (Except OperationError CNNNetwork × Core) × List Event :=
  let weights_desc := TensorDesc.new Layout.ANY [weights_content.length] Precision.U8
  match Blob.new env weights_desc weights_content with
  | (Except.error e, tr) => ((Except.error e, self), tr)
  | (Except.ok weights_blob, tr) =>
    let (status, inst) :=
      env.readNetworkFromMemory self.inst model_content model_content.length
        weights_blob.inst
    let tr := tr ++ [Event.readFromMemoryCall self.inst model_content
      model_content.length weights_blob.inst]
    match tryStatus status with
    | Except.error e => ((Except.error e, self), tr ++ weights_blob.drop)
    | Except.ok _ => ((Except.ok { inst := inst }, self), tr ++ weights_blob.drop)

/-- The function `Core::load_network` (`core.rs` lines 88 to 111): build the
single-entry hard-coded configuration list (name `INFERENCE_NUM_THREADS`,
value the address of `NUM_THREADS`, null `next` pointer) and call the native
load entry point with the core handle, the network handle, the device string
and that configuration. -/
def Core.load_network (env : FfiEnv) (self : Core) (network : CNNNetwork)
    (device : String) :
    (Except OperationError ExecutableNetwork × Core) × List Event :=
  let empty_config := IeConfig.cons "INFERENCE_NUM_THREADS" NUM_THREADS IeConfig.nil
  let (status, inst) := env.loadNetwork self.inst network.inst device empty_config
  let tr := [Event.loadNetworkCall self.inst network.inst device empty_config]
  match tryStatus status with
  | Except.error e => ((Except.error e, self), tr)
  | Except.ok _ => ((Except.ok { inst := inst }, self), tr)

/-- Number of release events for the foreign buffer handle `h` in a trace. -/
def countBlobFree : List Event → Ptr → Nat
  | [], _ => 0
  | Event.blobFree h :: tr, p => (if h = p then 1 else 0) + countBlobFree tr p
  | _ :: tr, p => countBlobFree tr p

/-- Number of native read-from-memory calls in a trace. -/
def countReadFromMemoryCalls : List Event → Nat
  | [] => 0
  | Event.readFromMemoryCall _ _ _ _ :: tr => 1 + countReadFromMemoryCalls tr
  | _ :: tr => countReadFromMemoryCalls tr

/-- Whether an `Except` result is a success value. -/
def isOk {ε α : Type} : Except ε α → Bool
  | Except.ok _ => true
  | Except.error _ => false

/-- An environment in which every native call succeeds and writes a distinct
non-null handle, the library loads, and no plugin file is discovered. -/
def envOkAll : FfiEnv where
  libLoad := none
  findPluginsXml := none
  coreCreate := fun _ => (okStatus, some 1)
  blobNew := fun _ _ => (okStatus, some 2)
  readNetwork := fun _ _ _ => (okStatus, some 3)
  readNetworkFromMemory := fun _ _ _ _ => (okStatus, some 4)
  loadNetwork := fun _ _ _ _ => (okStatus, some 5)

/-- An environment in which the library loads and a stringifiable plugin
file is discovered, and every native call succeeds. -/
def envFinder : FfiEnv where
  libLoad := none
  findPluginsXml := some { toStr := some "/opt/intel/plugins.xml" }
  coreCreate := fun _ => (okStatus, some 1)
  blobNew := fun _ _ => (okStatus, some 2)
  readNetwork := fun _ _ _ => (okStatus, some 3)
  readNetworkFromMemory := fun _ _ _ _ => (okStatus, some 4)
  loadNetwork := fun _ _ _ _ => (okStatus, some 5)

/-- An environment in which the library loads but every native call fails
with status 7 and writes nothing. -/
def envFailAll : FfiEnv where
  libLoad := none
  findPluginsXml := none
  coreCreate := fun _ => (7, none)
  blobNew := fun _ _ => (7, none)
  readNetwork := fun _ _ _ => (7, none)
  readNetworkFromMemory := fun _ _ _ _ => (7, none)
  loadNetwork := fun _ _ _ _ => (7, none)

/-- An environment in which the native shared library fails to load. -/
def envLibFail : FfiEnv where
  libLoad := some "cannot find shared library"
  findPluginsXml := none
  coreCreate := fun _ => (okStatus, some 1)
  blobNew := fun _ _ => (okStatus, some 2)
  readNetwork := fun _ _ _ => (okStatus, some 3)
  readNetworkFromMemory := fun _ _ _ _ => (okStatus, some 4)
  loadNetwork := fun _ _ _ _ => (okStatus, some 5)

/-- An environment in which the library loads, no explicit or discovered
configuration issues arise, blob creation succeeds, but the read-from-memory
call fails with status 3. -/
def envMemFail : FfiEnv where
  libLoad := none
  findPluginsXml := none
  coreCreate := fun _ => (okStatus, some 1)
  blobNew := fun _ _ => (okStatus, some 2)
  readNetwork := fun _ _ _ => (okStatus, some 3)
  readNetworkFromMemory := fun _ _ _ _ => (3, none)
  loadNetwork := fun _ _ _ _ => (okStatus, some 5)

/-- An environment in which the discovered plugin path cannot be represented
as a valid string. -/
def envBadPath : FfiEnv where
  libLoad := none
  findPluginsXml := some { toStr := none }
  coreCreate := fun _ => (okStatus, some 1)
  blobNew := fun _ _ => (okStatus, some 2)
  readNetwork := fun _ _ _ => (okStatus, some 3)
  readNetworkFromMemory := fun _ _ _ _ => (okStatus, some 4)
  loadNetwork := fun _ _ _ _ => (okStatus, some 5)

/-- C1: whenever the transient weight `Blob` is successfully created inside
`read_network_from_buffer`, its foreign buffer handle is released exactly
once in the trace of the call — for every environment, hence both when the
native read-from-memory call succeeds and when it fails. -/
theorem read_from_buffer_releases_blob_once (env : FfiEnv) (self : Core)
    (model_content weights_content : Bytes)
    (hok : (env.blobNew (TensorDesc.new Layout.ANY [weights_content.length] Precision.U8)
      weights_content).1 = okStatus) :
    countBlobFree
      (Core.read_network_from_buffer env self model_content weights_content).2
      (env.blobNew (TensorDesc.new Layout.ANY [weights_content.length] Precision.U8)
        weights_content).2 = 1 := by
  rcases hbn : env.blobNew (TensorDesc.new Layout.ANY [weights_content.length] Precision.U8)
      weights_content with ⟨status, h⟩
  rw [hbn] at hok
  simp only at hok
  subst hok
  rcases hrm : env.readNetworkFromMemory self.inst model_content model_content.length h
    with ⟨status2, inst2⟩
  by_cases hs : status2 = okStatus <;>
    simp [Core.read_network_from_buffer, Blob.new, Blob.drop, hbn, hrm, tryStatus, hs,
      countBlobFree]

theorem read_from_buffer_releases_blob_once_witness :
    countBlobFree (Core.read_network_from_buffer envOkAll { inst := some 1 } [7, 7] [9]).2
      (envOkAll.blobNew (TensorDesc.new Layout.ANY [1] Precision.U8) [9]).2 = 1 :=
  read_from_buffer_releases_blob_once envOkAll { inst := some 1 } [7, 7] [9] rfl

/-- C5: when the transient weight `Blob` is successfully created,
`read_network_from_buffer` produces exactly this boundary trace: a blob
construction call whose descriptor is layout `ANY`, a single dimension equal
to the weight-byte count, and precision `U8`, applied to the weight bytes;
the allocation of the resulting buffer handle; the native read-from-memory
call receiving the model bytes as pointer plus length together with that
buffer handle; and the release of the buffer handle. -/
theorem read_from_buffer_call_shape (env : FfiEnv) (self : Core)
    (model_content weights_content : Bytes)
    (hok : (env.blobNew (TensorDesc.new Layout.ANY [weights_content.length] Precision.U8)
      weights_content).1 = okStatus) :
    (Core.read_network_from_buffer env self model_content weights_content).2 =
      [Event.blobNewCall (TensorDesc.new Layout.ANY [weights_content.length] Precision.U8)
         weights_content,
       Event.blobAlloc (env.blobNew (TensorDesc.new Layout.ANY [weights_content.length]
         Precision.U8) weights_content).2,
       Event.readFromMemoryCall self.inst model_content model_content.length
         (env.blobNew (TensorDesc.new Layout.ANY [weights_content.length] Precision.U8)
           weights_content).2,
       Event.blobFree (env.blobNew (TensorDesc.new Layout.ANY [weights_content.length]
         Precision.U8) weights_content).2] := by
  rcases hbn : env.blobNew (TensorDesc.new Layout.ANY [weights_content.length] Precision.U8)
      weights_content with ⟨status, h⟩
  rw [hbn] at hok
  simp only at hok
  subst hok
  rcases hrm : env.readNetworkFromMemory self.inst model_content model_content.length h
    with ⟨status2, inst2⟩
  by_cases hs : status2 = okStatus <;>
    simp [Core.read_network_from_buffer, Blob.new, Blob.drop, hbn, hrm, tryStatus, hs]

theorem read_from_buffer_call_shape_witness :
    (Core.read_network_from_buffer envOkAll { inst := some 1 } [7, 7] [9]).2 =
      [Event.blobNewCall (TensorDesc.new Layout.ANY [1] Precision.U8) [9],
       Event.blobAlloc (some 2),
       Event.readFromMemoryCall (some 1) [7, 7] 2 (some 2),
       Event.blobFree (some 2)] :=
  read_from_buffer_call_shape envOkAll { inst := some 1 } [7, 7] [9] rfl

/-- C10: when the construction of the transient weight `Blob` fails inside
`read_network_from_buffer`, the function returns that error immediately — it
carries the failing blob-creation status — the native read-from-memory entry
point is never invoked, and no `CNNNetwork` value is produced. -/
theorem blob_failure_short_circuits (env : FfiEnv) (self : Core)
    (model_content weights_content : Bytes)
    (hfail : (env.blobNew (TensorDesc.new Layout.ANY [weights_content.length] Precision.U8)
      weights_content).1 ≠ okStatus) :
    (Core.read_network_from_buffer env self model_content weights_content).1.1 =
      Except.error { code := (env.blobNew (TensorDesc.new Layout.ANY
        [weights_content.length] Precision.U8) weights_content).1 } ∧
    countReadFromMemoryCalls
      (Core.read_network_from_buffer env self model_content weights_content).2 = 0 := by
  rcases hbn : env.blobNew (TensorDesc.new Layout.ANY [weights_content.length] Precision.U8)
      weights_content with ⟨status, h⟩
  rw [hbn] at hfail
  simp only at hfail
  simp [Core.read_network_from_buffer, Blob.new, hbn, tryStatus, hfail,
    countReadFromMemoryCalls]

theorem blob_failure_short_circuits_witness :
    (Core.read_network_from_buffer envFailAll { inst := some 1 } [7, 7] [9]).1.1 =
      Except.error { code := 7 } ∧
    countReadFromMemoryCalls
      (Core.read_network_from_buffer envFailAll { inst := some 1 } [7, 7] [9]).2 = 0 :=
  blob_failure_short_circuits envFailAll { inst := some 1 } [7, 7] [9] (by decide)

/-- C2: under a successful library load, the configuration path passed to
the native create call follows this exact precedence: the explicit path
argument when one is given (for every finder behaviour, so the discovered
default is never used), otherwise the stringified auto-discovered path when
the external finder yields one, otherwise the empty string sentinel — and in
each case exactly one create call is made, with a definite string argument,
never a null or invalid one. -/
theorem core_new_config_path_precedence (env : FfiEnv) (hlib : env.libLoad = none) :
    (∀ p : String, (Core.new env (some p)).2 = [Event.coreCreateCall p]) ∧
    (∀ path s, env.findPluginsXml = some path → path.toStr = some s →
      (Core.new env none).2 = [Event.coreCreateCall s]) ∧
    (env.findPluginsXml = none →
      (Core.new env none).2 = [Event.coreCreateCall ""]) := by
  refine ⟨fun p => ?_, fun path s hf hs => ?_, fun hf => ?_⟩
  · rcases hc : env.coreCreate p with ⟨status, inst⟩
    by_cases h : status = okStatus <;>
      simp [Core.new, hlib, hc, tryStatus, h]
  · rcases hc : env.coreCreate s with ⟨status, inst⟩
    by_cases h : status = okStatus <;>
      simp [Core.new, hlib, hf, hs, hc, tryStatus, h]
  · rcases hc : env.coreCreate "" with ⟨status, inst⟩
    by_cases h : status = okStatus <;>
      simp [Core.new, hlib, hf, hc, tryStatus, h]

theorem core_new_config_path_precedence_witness :
    (Core.new envOkAll (some "plugins.xml")).2 = [Event.coreCreateCall "plugins.xml"] ∧
    (Core.new envFinder none).2 = [Event.coreCreateCall "/opt/intel/plugins.xml"] ∧
    (Core.new envOkAll none).2 = [Event.coreCreateCall ""] :=
  ⟨(core_new_config_path_precedence envOkAll rfl).1 "plugins.xml",
   (core_new_config_path_precedence envFinder rfl).2.1 { toStr := some "/opt/intel/plugins.xml" }
     "/opt/intel/plugins.xml" rfl rfl,
   (core_new_config_path_precedence envOkAll rfl).2.2 rfl⟩

/-- C4: `Core::new` can fail in exactly three ways and no others — a
`SystemFailure` exactly when the native library fails to load,
`CannotStringifyPath` only when no explicit path was given and the
auto-discovered path cannot be stringified, and a general operation failure
carrying a non-success status when the native create call fails; in
particular `CannotStringifyPath` is never returned when an explicit path
argument is supplied. -/
theorem core_new_failure_modes (env : FfiEnv) (xml_config_file : Option String) :
    (∀ e tr, Core.new env xml_config_file = (Except.error e, tr) →
      (∃ msg, e = SetupError.loading (LoadingError.systemFailure msg) ∧
        env.libLoad = some msg) ∨
      (e = SetupError.loading LoadingError.cannotStringifyPath ∧
        xml_config_file = none ∧
        ∃ path, env.findPluginsXml = some path ∧ path.toStr = none) ∨
      (∃ code, e = SetupError.operation { code := code } ∧ code ≠ okStatus)) ∧
    (∀ p, xml_config_file = some p →
      ∀ tr, Core.new env xml_config_file ≠
        (Except.error (SetupError.loading LoadingError.cannotStringifyPath), tr)) := by
  constructor
  · intro e tr h
    rcases hl : env.libLoad with _ | msg
    · rcases xml_config_file with _ | p
      · rcases hf : env.findPluginsXml with _ | path
        · rcases hc : env.coreCreate "" with ⟨status, inst⟩
          by_cases hs : status = okStatus <;>
            simp [Core.new, hl, hf, hc, tryStatus, hs] at h
          right; right; exact ⟨status, h.1.symm, hs⟩
        · rcases hts : path.toStr with _ | s
          · simp [Core.new, hl, hf, hts] at h
            right; left; exact ⟨h.1.symm, rfl, path, rfl, hts⟩
          · rcases hc : env.coreCreate s with ⟨status, inst⟩
            by_cases hs : status = okStatus <;>
              simp [Core.new, hl, hf, hts, hc, tryStatus, hs] at h
            right; right; exact ⟨status, h.1.symm, hs⟩
      · rcases hc : env.coreCreate p with ⟨status, inst⟩
        by_cases hs : status = okStatus <;>
          simp [Core.new, hl, hc, tryStatus, hs] at h
        right; right; exact ⟨status, h.1.symm, hs⟩
    · simp [Core.new, hl] at h
      left; exact ⟨msg, h.1.symm, rfl⟩
  · intro p hp tr
    subst hp
    rcases hc : env.coreCreate p with ⟨status, inst⟩
    rcases hl : env.libLoad with _ | msg <;>
      by_cases hs : status = okStatus <;>
        simp [Core.new, hl, hc, tryStatus, hs]

theorem core_new_failure_modes_witness :
    (∃ msg, SetupError.loading (LoadingError.systemFailure "cannot find shared library") =
        SetupError.loading (LoadingError.systemFailure msg) ∧
      envLibFail.libLoad = some msg) ∨
    (SetupError.loading (LoadingError.systemFailure "cannot find shared library") =
        SetupError.loading LoadingError.cannotStringifyPath ∧
      (none : Option String) = none ∧
      ∃ path, envLibFail.findPluginsXml = some path ∧ path.toStr = none) ∨
    (∃ code, SetupError.loading (LoadingError.systemFailure "cannot find shared library") =
        SetupError.operation { code := code } ∧ code ≠ okStatus) :=
  (core_new_failure_modes envLibFail none).1
    (SetupError.loading (LoadingError.systemFailure "cannot find shared library")) [] rfl

/-- C6: `load_network` neither consumes nor invalidates the input network:
its trace is exactly the one native load call (no event releases or touches
the network handle, which is passed through unchanged), and under a healthy
native backend the same `CNNNetwork` value can be passed again — two calls
in succession with two device names both succeed. -/
theorem load_network_preserves_network (env : FfiEnv) (self : Core)
    (network : CNNNetwork) (d1 d2 : String)
    (healthy : ∀ c n d cfg, (env.loadNetwork c n d cfg).1 = okStatus) :
    (Core.load_network env self network d1).2 =
      [Event.loadNetworkCall self.inst network.inst d1
        (IeConfig.cons "INFERENCE_NUM_THREADS" NUM_THREADS IeConfig.nil)] ∧
    isOk (Core.load_network env self network d1).1.1 = true ∧
    isOk (Core.load_network env (Core.load_network env self network d1).1.2
      network d2).1.1 = true := by
  refine ⟨?_, ?_, ?_⟩ <;>
    simp [Core.load_network, tryStatus, healthy, isOk]

theorem load_network_preserves_network_witness :
    (Core.load_network envOkAll { inst := some 1 } { inst := some 3 } "CPU").2 =
      [Event.loadNetworkCall (some 1) (some 3) "CPU"
        (IeConfig.cons "INFERENCE_NUM_THREADS" NUM_THREADS IeConfig.nil)] ∧
    isOk (Core.load_network envOkAll { inst := some 1 } { inst := some 3 } "CPU").1.1 = true ∧
    isOk (Core.load_network envOkAll
      (Core.load_network envOkAll { inst := some 1 } { inst := some 3 } "CPU").1.2
      { inst := some 3 } "GPU").1.1 = true :=
  load_network_preserves_network envOkAll { inst := some 1 } { inst := some 3 } "CPU" "GPU"
    (fun _ _ _ _ => rfl)

/-- C7: every call to `load_network` makes exactly one native load call and
passes it exactly one hard-coded configuration entry — name
`INFERENCE_NUM_THREADS`, value the thread-count constant, null `next`
pointer — so the configuration argument is a single-entry list, never the
null configuration, and the thread-count constant equals 1. -/
theorem load_network_fixed_config (env : FfiEnv) (self : Core)
    (network : CNNNetwork) (device : String) :
    (Core.load_network env self network device).2 =
      [Event.loadNetworkCall self.inst network.inst device
        (IeConfig.cons "INFERENCE_NUM_THREADS" NUM_THREADS IeConfig.nil)] ∧
    IeConfig.cons "INFERENCE_NUM_THREADS" NUM_THREADS IeConfig.nil ≠ IeConfig.nil ∧
    NUM_THREADS = 1 := by
  refine ⟨?_, by decide, rfl⟩
  rcases hc : env.loadNetwork self.inst network.inst device
      (IeConfig.cons "INFERENCE_NUM_THREADS" NUM_THREADS IeConfig.nil) with ⟨status, inst⟩
  by_cases hs : status = okStatus <;>
    simp [Core.load_network, hc, tryStatus, hs]

/-- C9: the three producing operations leave the state of the `Core` itself
unchanged — the foreign handle field after any call to
`read_network_from_file`, `read_network_from_buffer` or `load_network`
equals the one before it, whether the call succeeds or fails. -/
theorem operations_preserve_core_state (env : FfiEnv) (self : Core) :
    (∀ mp wp, (Core.read_network_from_file env self mp wp).1.2 = self) ∧
    (∀ m w, (Core.read_network_from_buffer env self m w).1.2 = self) ∧
    (∀ network d, (Core.load_network env self network d).1.2 = self) := by
  refine ⟨fun mp wp => ?_, fun m w => ?_, fun network d => ?_⟩
  · rcases hc : env.readNetwork self.inst mp wp with ⟨status, inst⟩
    by_cases hs : status = okStatus <;>
      simp [Core.read_network_from_file, hc, tryStatus, hs]
  · rcases hbn2 : env.blobNew (TensorDesc.new Layout.ANY [w.length] Precision.U8) w
      with ⟨bstatus2, bh2⟩
    rcases hrm : env.readNetworkFromMemory self.inst m m.length bh2 with ⟨status2, inst2⟩
    by_cases hb : bstatus2 = okStatus <;>
      by_cases hs : status2 = okStatus <;>
        simp [Core.read_network_from_buffer, Blob.new, hbn2, hrm, tryStatus, hb, hs]
  · rcases hc : env.loadNetwork self.inst network.inst d
        (IeConfig.cons "INFERENCE_NUM_THREADS" NUM_THREADS IeConfig.nil) with ⟨status, inst⟩
    by_cases hs : status = okStatus <;>
      simp [Core.load_network, hc, tryStatus, hs]

/-- C3: each producing operation succeeds exactly when every native status it
encounters is the success status; any non-success status is returned as a
typed `OperationError` preserving the original numeric code, never converted
to a success; and each native entry point is invoked once per call with no
internal retry, as the traces show. -/
theorem operation_result_iff_ok_status (env : FfiEnv) (self : Core) :
    (∀ mp wp : String,
      (isOk (Core.read_network_from_file env self mp wp).1.1 = true ↔
        (env.readNetwork self.inst mp wp).1 = okStatus) ∧
      (∀ e, (Core.read_network_from_file env self mp wp).1.1 = Except.error e →
        e.code = (env.readNetwork self.inst mp wp).1) ∧
      (Core.read_network_from_file env self mp wp).2 =
        [Event.readNetworkCall self.inst mp wp]) ∧
    (∀ (network : CNNNetwork) (device : String),
      (isOk (Core.load_network env self network device).1.1 = true ↔
        (env.loadNetwork self.inst network.inst device
          (IeConfig.cons "INFERENCE_NUM_THREADS" NUM_THREADS IeConfig.nil)).1 =
            okStatus) ∧
      (∀ e, (Core.load_network env self network device).1.1 = Except.error e →
        e.code = (env.loadNetwork self.inst network.inst device
          (IeConfig.cons "INFERENCE_NUM_THREADS" NUM_THREADS IeConfig.nil)).1)) ∧
    (∀ model_content weights_content : Bytes,
      ((env.blobNew (TensorDesc.new Layout.ANY [weights_content.length] Precision.U8)
          weights_content).1 = okStatus →
        ((isOk (Core.read_network_from_buffer env self
            model_content weights_content).1.1 = true ↔
          (env.readNetworkFromMemory self.inst model_content model_content.length
            (env.blobNew (TensorDesc.new Layout.ANY [weights_content.length] Precision.U8)
              weights_content).2).1 = okStatus) ∧
        (∀ e, (Core.read_network_from_buffer env self model_content weights_content).1.1 =
            Except.error e →
          e.code = (env.readNetworkFromMemory self.inst model_content model_content.length
            (env.blobNew (TensorDesc.new Layout.ANY [weights_content.length] Precision.U8)
              weights_content).2).1))) ∧
      ((env.blobNew (TensorDesc.new Layout.ANY [weights_content.length] Precision.U8)
          weights_content).1 ≠ okStatus →
        (Core.read_network_from_buffer env self model_content weights_content).1.1 =
          Except.error { code := (env.blobNew (TensorDesc.new Layout.ANY
            [weights_content.length] Precision.U8) weights_content).1 })) := by
  refine ⟨fun mp wp => ?_, fun network device => ?_,
    fun model_content weights_content => ⟨fun hok => ?_, fun hfail => ?_⟩⟩
  · rcases hc : env.readNetwork self.inst mp wp with ⟨status, inst⟩
    by_cases hs : status = okStatus <;>
      simp [Core.read_network_from_file, hc, tryStatus, hs, isOk]
  · rcases hc : env.loadNetwork self.inst network.inst device
        (IeConfig.cons "INFERENCE_NUM_THREADS" NUM_THREADS IeConfig.nil)
      with ⟨status, inst⟩
    by_cases hs : status = okStatus <;>
      simp [Core.load_network, hc, tryStatus, hs, isOk]
  · rcases hbn : env.blobNew (TensorDesc.new Layout.ANY [weights_content.length] Precision.U8)
        weights_content with ⟨bstatus, bh⟩
    rw [hbn] at hok
    simp only at hok
    subst hok
    rcases hrm : env.readNetworkFromMemory self.inst model_content model_content.length bh
      with ⟨status2, inst2⟩
    by_cases hs : status2 = okStatus <;>
      simp [Core.read_network_from_buffer, Blob.new, hbn, hrm, tryStatus, hs, isOk]
  · rcases hbn : env.blobNew (TensorDesc.new Layout.ANY [weights_content.length] Precision.U8)
        weights_content with ⟨bstatus, bh⟩
    rw [hbn] at hfail
    simp only at hfail
    simp [Core.read_network_from_buffer, Blob.new, hbn, tryStatus, hfail]

theorem operation_result_iff_ok_status_witness :
    ((Core.read_network_from_file envFailAll { inst := some 1 } "model.xml"
      "model.bin").1.1 = Except.error { code := 7 }) ∧
    (OperationError.code { code := 7 } =
      (envFailAll.readNetwork (some 1) "model.xml" "model.bin").1) :=
  ⟨rfl, ((operation_result_iff_ok_status envFailAll { inst := some 1 }).1 "model.xml"
    "model.bin").2.1 { code := 7 } rfl⟩

/-- C8: under the native out-parameter contract — a success status implies
that a non-null handle was written through the out-parameter — every
successful construction or producing operation yields a wrapper whose
foreign handle is non-null: the `Core` from `Core::new`, the `CNNNetwork`
from either read operation, and the `ExecutableNetwork` from
`load_network`; the embedding never mutates a wrapper field afterwards. -/
theorem success_handles_nonnull (env : FfiEnv)
    (hcreate : ∀ f, (env.coreCreate f).1 = okStatus → (env.coreCreate f).2.isSome = true)
    (hread : ∀ c mp wp, (env.readNetwork c mp wp).1 = okStatus →
      (env.readNetwork c mp wp).2.isSome = true)
    (hmem : ∀ c m l b, (env.readNetworkFromMemory c m l b).1 = okStatus →
      (env.readNetworkFromMemory c m l b).2.isSome = true)
    (hload : ∀ c n d cfg, (env.loadNetwork c n d cfg).1 = okStatus →
      (env.loadNetwork c n d cfg).2.isSome = true) :
    (∀ xml core tr, Core.new env xml = (Except.ok core, tr) →
      core.inst.isSome = true) ∧
    (∀ self mp wp net,
      (Core.read_network_from_file env self mp wp).1.1 = Except.ok net →
      net.inst.isSome = true) ∧
    (∀ self m w net,
      (Core.read_network_from_buffer env self m w).1.1 = Except.ok net →
      net.inst.isSome = true) ∧
    (∀ self network d en,
      (Core.load_network env self network d).1.1 = Except.ok en →
      en.inst.isSome = true) := by
  refine ⟨?_, ?_, ?_, ?_⟩
  · intro xml core tr h
    rcases core with ⟨cinst⟩
    rcases hl : env.libLoad with _ | msg
    · rcases xml with _ | p
      · rcases hf : env.findPluginsXml with _ | path
        · have h2 := hcreate ""
          rcases hc : env.coreCreate "" with ⟨status, inst⟩
          rw [hc] at h2
          by_cases hs : status = okStatus <;>
            simp [Core.new, hl, hf, hc, tryStatus, hs] at h
          exact h.1 ▸ h2 hs
        · rcases hts : path.toStr with _ | s
          · simp [Core.new, hl, hf, hts] at h
          · have h2 := hcreate s
            rcases hc : env.coreCreate s with ⟨status, inst⟩
            rw [hc] at h2
            by_cases hs : status = okStatus <;>
              simp [Core.new, hl, hf, hts, hc, tryStatus, hs] at h
            exact h.1 ▸ h2 hs
      · have h2 := hcreate p
        rcases hc : env.coreCreate p with ⟨status, inst⟩
        rw [hc] at h2
        by_cases hs : status = okStatus <;>
          simp [Core.new, hl, hc, tryStatus, hs] at h
        exact h.1 ▸ h2 hs
    · simp [Core.new, hl] at h
  · intro self mp wp net h
    rcases net with ⟨ninst⟩
    have h2 := hread self.inst mp wp
    rcases hc : env.readNetwork self.inst mp wp with ⟨status, inst⟩
    rw [hc] at h2
    by_cases hs : status = okStatus <;>
      simp [Core.read_network_from_file, hc, tryStatus, hs] at h
    exact h ▸ h2 hs
  · intro self m w net h
    rcases net with ⟨ninst⟩
    rcases hbn : env.blobNew (TensorDesc.new Layout.ANY [w.length] Precision.U8) w
      with ⟨bstatus, bh⟩
    have h2 := hmem self.inst m m.length bh
    rcases hrm : env.readNetworkFromMemory self.inst m m.length bh with ⟨status2, inst2⟩
    rw [hrm] at h2
    by_cases hb : bstatus = okStatus <;>
      by_cases hs : status2 = okStatus <;>
        simp [Core.read_network_from_buffer, Blob.new, hbn, hrm, tryStatus, hb, hs] at h
    exact h ▸ h2 hs
  · intro self network d en h
    rcases en with ⟨einst⟩
    have h2 := hload self.inst network.inst d
      (IeConfig.cons "INFERENCE_NUM_THREADS" NUM_THREADS IeConfig.nil)
    rcases hc : env.loadNetwork self.inst network.inst d
        (IeConfig.cons "INFERENCE_NUM_THREADS" NUM_THREADS IeConfig.nil)
      with ⟨status, inst⟩
    rw [hc] at h2
    by_cases hs : status = okStatus <;>
      simp [Core.load_network, hc, tryStatus, hs] at h
    exact h ▸ h2 hs

theorem success_handles_nonnull_witness :
    ({ inst := some 1 } : Core).inst.isSome = true :=
  (success_handles_nonnull envOkAll (fun _ _ => rfl) (fun _ _ _ _ => rfl)
    (fun _ _ _ _ _ => rfl) (fun _ _ _ _ _ => rfl)).1 none { inst := some 1 }
    [Event.coreCreateCall ""] rfl

end OpenVINO
